import Mathlib

/-!
Verification of the nutrition-widget repository
(`app/nmacros/page.tsx`, `app/mcp/route.ts` and the two unnamed route/page
variants).  The loosely-typed tool-output envelopes handled by the client are
modelled by a JSON-like value type `JVal`; the client component `Macros`
(envelope normalisation, error extraction and the Loading/Error/Empty/Ready
rendering logic) and the three server-side `analyze_food` handlers are
translated into pure Lean functions over that type.  JavaScript numbers are
modelled as rationals, JavaScript truthiness (`if (x)`, `a || b`, `!x`) is
made explicit, and `Option` `none` stands for JS `null`/`undefined`.
-/

/-- JSON-like values: the shape of tool outputs, `structuredContent`
payloads and the other loosely-typed data the widget manipulates.
JS numbers are modelled as rationals (the source never produces NaN or
infinities on these paths). -/
inductive JVal where
  | null : JVal
  | bool (b : Bool) : JVal
  | num (q : ℚ) : JVal
  | str (s : String) : JVal
  | arr (elems : List JVal) : JVal
  | obj (fields : List (String × JVal)) : JVal

/-- Field lookup in an object's field list (JS objects have unique keys;
first binding wins). -/
def lookupField : List (String × JVal) → String → Option JVal
  | [], _ => none
  | (k, v) :: rest, key => if k = key then some v else lookupField rest key

/-- JS property access `v.key` for the keys used by the widget: defined on
objects, `undefined` (`none`) on every other value (arrays and primitives
have none of the properties probed by this code). -/
def JVal.getField : JVal → String → Option JVal
  | .obj fields, key => lookupField fields key
  | _, _ => none

/-- JS optional chaining `x?.key` on a possibly-absent value. -/
def jget (t : Option JVal) (key : String) : Option JVal :=
  t.bind (fun v => v.getField key)

/-- JS truthiness of a value: `null`, `false`, `0` and `""` are falsy;
arrays and objects (including `[]` and the empty object) are truthy. -/
def vtruthy : JVal → Bool
  | .null => false
  | .bool b => b
  | .num q => !(decide (q = 0))
  | .str s => !s.isEmpty
  | .arr _ => true
  | .obj _ => true

/-- JS truthiness of a possibly-absent value (`undefined` is falsy). -/
def jtruthy (t : Option JVal) : Bool :=
  match t with
  | some v => vtruthy v
  | none => false

/-- The JS `in` operator restricted to the keys this code probes: true
exactly on objects owning the key (arrays and primitives own none of the
probed keys). -/
def hasKey (v : JVal) (key : String) : Bool :=
  match v with
  | .obj fields => (lookupField fields key).isSome
  | _ => false

/-- `typeof v === "object"` for non-null values: objects and arrays. -/
def isObjLike : JVal → Bool
  | .obj _ => true
  | .arr _ => true
  | _ => false

/-- JS `v.length > 0`: defined for arrays and strings; on other values
`length` is `undefined` and the comparison is false. -/
def jsLengthGtZero : JVal → Bool
  | .arr l => !l.isEmpty
  | .str s => !s.isEmpty
  | _ => false

/-- JS `v.length === 0`: true for empty arrays and empty strings; false
when `length` is `undefined`. -/
def jsLengthEqZero : JVal → Bool
  | .arr l => l.isEmpty
  | .str s => s.isEmpty
  | _ => false

/-- Rule 4 guard of the normaliser in `Macros` (page.tsx lines 56-59):
`toolOutput && typeof toolOutput === 'object'` together with
`'loggedMeals' in toolOutput || 'dailyTotals' in toolOutput`. -/
def envHasMealKeys (t : Option JVal) : Bool :=
  match t with
  | some v => vtruthy v && isObjLike v && (hasKey v "loggedMeals" || hasKey v "dailyTotals")
  | none => false

/-- The Envelope Normalizer of `Macros` (page.tsx lines 46-60): the
if/else chain trying `toolOutput?.result?.structuredContent`, then
`toolOutput?.structuredContent`, then `toolOutput?.result`, then the
envelope itself when it carries `loggedMeals` or `dailyTotals`; `null`
otherwise.  A total function: no shape throws. -/
def extractMealData (t : Option JVal) : Option JVal :=
  if jtruthy (jget (jget t "result") "structuredContent") then
    jget (jget t "result") "structuredContent"
  else if jtruthy (jget t "structuredContent") then
    jget t "structuredContent"
  else if jtruthy (jget t "result") then
    jget t "result"
  else if envHasMealKeys t then
    t
  else
    none

/-- Error extraction of `Macros` (page.tsx line 63):
`mealData?.error || toolOutput?.error` — JS `||`, so a falsy (empty)
meal-data error falls through to the envelope-level error. -/
def derivedError (t : Option JVal) : Option JVal :=
  if jtruthy (jget (extractMealData t) "error") then
    jget (extractMealData t) "error"
  else
    jget t "error"

/-- The spec's own error-extraction rule, written with `??`
(`mealData?.error ?? envelope?.error ?? null`): nullish coalescing, so a
present empty string is kept.  Declared only to compare the spec's words
with the source's `||`-based `derivedError`. -/
def specExtractedError (t : Option JVal) : Option JVal :=
  match jget (extractMealData t) "error" with
  | some .null => jget t "error"
  | some v => some v
  | none => jget t "error"

/-- The meal list of `Macros` (page.tsx line 64):
`mealData?.loggedMeals || []`. -/
def derivedMeals (t : Option JVal) : JVal :=
  match jget (extractMealData t) "loggedMeals" with
  | some v => if vtruthy v then v else JVal.arr []
  | none => JVal.arr []

/-- Length of the derived meal list as JS reads `meals.length` (arrays and
strings only; `0` stands for the `undefined` length of other values, which
satisfies neither `> 0` nor `=== 0` in the source and is never reached
under the well-formedness hypotheses used below). -/
def derivedMealsLen (t : Option JVal) : Nat :=
  match derivedMeals t with
  | .arr l => l.length
  | .str s => s.length
  | _ => 0

/-- Well-formedness of the data actually discussed by the state-machine
claims: the derived `loggedMeals` field, when present, is an array (the
shape every producer in this repository emits). -/
def loggedMealsWF (t : Option JVal) : Prop :=
  jget (extractMealData t) "loggedMeals" = none ∨
    ∃ l, jget (extractMealData t) "loggedMeals" = some (JVal.arr l)

/-- The in-flight check of the loading effect (page.tsx line 84):
`'loggedMeals' in toolOutput && Array.isArray(toolOutput.loggedMeals) &&
toolOutput.loggedMeals.length > 0`. -/
def hasNonEmptyLoggedMeals (v : JVal) : Bool :=
  hasKey v "loggedMeals" &&
    (match v.getField "loggedMeals" with
     | some (.arr l) => !l.isEmpty
     | _ => false)

/-- The settled value of the `isLoading` React state after the effect of
page.tsx lines 67-95 has run for the current envelope: false when meals
are present; true when the envelope is still `null`; true when the
envelope is a truthy object exposing `foodDescription` but no non-empty
`loggedMeals` array; false otherwise. -/
def settledIsLoading (t : Option JVal) : Bool :=
  if jsLengthGtZero (derivedMeals t) then false
  else
    match t with
    | none => true
    | some v =>
        vtruthy v && isObjLike v && hasKey v "foodDescription" &&
          !(hasNonEmptyLoggedMeals v)

/-- The four rendering states of the widget. -/
inductive RState where
  | error : RState
  | loading : RState
  | empty : RState
  | ready : RState
deriving DecidableEq

/-- The Rendering State Machine of `Macros` (page.tsx lines 97-159 with
the settled loading flag): `if (error)` → Error, `if (isLoading)` →
Loading, `if (meals.length === 0)` → Empty, otherwise Ready.  A pure
total function of the current envelope alone. -/
def renderState (t : Option JVal) : RState :=
  if jtruthy (derivedError t) then .error
  else if settledIsLoading t then .loading
  else if jsLengthEqZero (derivedMeals t) then .empty
  else .ready

/-! ### Canonical typed data model (the TS interfaces of the source) -/

/-- The `Nutrients` interface: four JS numbers, modelled as rationals. -/
structure Nutrients where
  calories : ℚ
  protein : ℚ
  carbs : ℚ
  fat : ℚ

/-- The `Ingredient` interface. -/
structure Ingredient where
  name : String
  brand : Option String
  serving_info : String
  nutrients : Nutrients

/-- The `Meal` interface. -/
structure Meal where
  meal_name : String
  meal_size : Option String
  ingredients : List Ingredient
  total_nutrients : Nutrients

/-- The `MealData` interface: the canonical normalised shape. -/
structure MealData where
  dailyTotals : Option Nutrients
  loggedMeals : Option (List Meal)
  mdError : Option String

/-! ### Presenter (rounding and the daily-totals / meal-card views) -/

/-- JS `Math.round` on the (rational) values this code rounds:
`⌊x + 1/2⌋`, i.e. round half UP (which, on non-negative inputs, agrees
with round-half-away-from-zero). -/
def mathRound (q : ℚ) : ℤ := ⌊q + 1/2⌋

/-- Round half away from zero, the rule named by the spec for the
displayed nutrient numbers.  Declared to be compared with the source's
`Math.round`. -/
def roundHalfAwayFromZero (q : ℚ) : ℤ :=
  if 0 ≤ q then ⌊q + 1/2⌋ else ⌈q - 1/2⌉

/-- The four-column nutrition grid shared by the daily-totals block
(part_000 lines 88-111), the meal card and the ingredient lines
(page.tsx `MealCard`): calories, protein, carbs, fat, each passed
through `Math.round`. -/
def nutrientsGrid (n : Nutrients) : List ℤ :=
  [mathRound n.calories, mathRound n.protein, mathRound n.carbs, mathRound n.fat]

/-- One rendered block of the ready view of the part_000 `Macros` page:
either the daily-totals card or a meal card (name, optional size, rounded
nutrient grid). -/
inductive RBlock where
  | totals (vals : List ℤ) : RBlock
  | mealCard (name : String) (size : Option String) (vals : List ℤ) : RBlock

/-- The meal card rendered for one meal (part_000 `MealCard`): its name,
its optional size and its `total_nutrients` rounded — never recomputed
from the ingredients. -/
def mealBlock (m : Meal) : RBlock :=
  .mealCard m.meal_name m.meal_size (nutrientsGrid m.total_nutrients)

/-- The three shapes the part_000 `Macros` component can render. -/
inductive View000 where
  | errorView (msg : String) : View000
  | emptyView : View000
  | readyView (blocks : List RBlock) : View000

/-- JS `a || b` on optional strings (an empty string falls through). -/
def jsOrS (a b : Option String) : Option String :=
  match a with
  | some s => if s.isEmpty then b else some s
  | none => b

/-- Truthiness of an optional string. -/
def strOptTruthy (a : Option String) : Bool :=
  match a with
  | some s => !s.isEmpty
  | none => false

/-- The part_000 `Macros` page over an already-normalised `MealData` and
the envelope-level error: `error = mealData?.error || toolOutput?.error`,
then error view / empty view / the ready view in which the daily-totals
card is emitted only when `mealData?.dailyTotals` is truthy, above the
meal cards (part_000 lines 54-124). -/
def render000 (md : Option MealData) (envErr : Option String) : View000 :=
  let err := jsOrS (md.bind MealData.mdError) envErr
  let meals := (md.bind MealData.loggedMeals).getD []
  if strOptTruthy err then .errorView (err.getD "")
  else if meals.isEmpty then .emptyView
  else
    .readyView
      ((match md.bind MealData.dailyTotals with
        | some n => [RBlock.totals (nutrientsGrid n)]
        | none => []) ++ meals.map mealBlock)

/-! ### Server-side analyze_food handlers -/

/-- The zod-validated `analyzedData` argument of the page.tsx route's
tool (`z.object({ dailyTotals: z.object({...numbers}), loggedMeals:
z.array(z.any()) })`): zod strips unknown keys, so a validated value has
exactly these two fields. -/
structure AnalyzedData where
  dailyTotals : Nutrients
  loggedMeals : List JVal

/-- JSON encoding of a `Nutrients` object. -/
def nutrientsToJVal (n : Nutrients) : JVal :=
  .obj [("calories", .num n.calories), ("protein", .num n.protein),
        ("carbs", .num n.carbs), ("fat", .num n.fat)]

/-- JSON encoding of a validated `analyzedData` payload (its exact two
fields). -/
def analyzedDataToJVal (ad : AnalyzedData) : JVal :=
  .obj [("dailyTotals", nutrientsToJVal ad.dailyTotals),
        ("loggedMeals", .arr ad.loggedMeals)]

/-- A tool response envelope: the human-readable `content` text and the
machine `structuredContent` payload (every handler also attaches the same
fixed `_meta` widget directives, which carry no data and are omitted). -/
structure ToolResponse where
  contentText : String
  structuredContent : JVal

/-- The error string of the Deferred strategy (page.tsx line 530). -/
def deferredErrorMsg : String :=
  "Please call this tool with the analyzedData parameter containing the analyzed meal data."

/-- The analyzedData-capable `analyze_food` handler (page.tsx lines
500-548): if `analyzedData?.loggedMeals && analyzedData?.dailyTotals`
(JS truthiness — an empty array and any object are truthy), pass the
supplied payload through verbatim; otherwise return the deferred response
carrying the original description and the resubmission error.  The try
body is pure, so the catch branch is unreachable and omitted. -/
def analyzeFood (foodDescription : String) (analyzedData : Option AnalyzedData) :
    ToolResponse :=
  match analyzedData with
  | some ad =>
      if vtruthy (.arr ad.loggedMeals) && vtruthy (nutrientsToJVal ad.dailyTotals) then
        { contentText := "Food analyzed: " ++ foodDescription
          structuredContent :=
            .obj [("dailyTotals", nutrientsToJVal ad.dailyTotals),
                  ("loggedMeals", .arr ad.loggedMeals)] }
      else
        { contentText :=
            "Please analyze \"" ++ foodDescription ++
              "\" using your nutrition knowledge and call this tool with the analyzedData parameter populated with the complete meal data."
          structuredContent :=
            .obj [("foodDescription", .str foodDescription),
                  ("error", .str deferredErrorMsg)] }
  | none =>
      { contentText :=
          "Please analyze \"" ++ foodDescription ++
            "\" using your nutrition knowledge and call this tool with the analyzedData parameter populated with the complete meal data."
        structuredContent :=
          .obj [("foodDescription", .str foodDescription),
                ("error", .str deferredErrorMsg)] }

/-- The `route.ts` `analyze_food` handler (lines 143-186): it accepts no
`analyzedData` and consults no credential; it always returns a
`structuredContent` holding only the original `foodDescription`, leaving
the analysis fields for the model to populate — no `error` field.  Its
try body is pure, so the catch branch is unreachable and omitted. -/
def routeAnalyzeFood (foodDescription : String) : ToolResponse :=
  { contentText :=
      "Food to analyze: " ++ foodDescription ++
        "\n\nPlease analyze this food using your nutrition knowledge and return the nutritional data in the JSON structure specified in the tool description."
    structuredContent := .obj [("foodDescription", .str foodDescription)] }

/-- Outcome of the one outbound OpenAI call of the part_001 handler, as
observed by the surrounding code: a non-success status whose error body
parsed (carrying `errorData.error?.message` when it is a string), a
non-success status whose body handling threw, a success whose
body/choices/`JSON.parse` handling threw (the runtime's error message is
carried), or a success whose content parsed to a JSON value. -/
inductive UpstreamOutcome where
  | notOkParsed (errMsg : Option String) : UpstreamOutcome
  | notOkBadBody (exnMsg : String) : UpstreamOutcome
  | okBadBody (exnMsg : String) : UpstreamOutcome
  | okParsed (data : JVal) : UpstreamOutcome

/-- JS `a || b` for the thrown upstream message
(`errorData.error?.message || "Failed to process food data"`). -/
def jsOrStr (a : Option String) (b : String) : String :=
  match a with
  | some s => if s.isEmpty then b else s
  | none => b

/-- The try body of the part_001 live handler after the credential check
(lines 225-276): throws (`Except.error`) on a non-success status, on a
body-handling failure, and on a parsed object failing
`!data.dailyTotals || !data.loggedMeals`; otherwise returns the success
envelope echoing the parsed `dailyTotals`/`loggedMeals`. -/
def liveTryBody (up : UpstreamOutcome) (foodDescription : String) :
    Except String ToolResponse :=
  match up with
  | .notOkParsed m => .error (jsOrStr m "Failed to process food data")
  | .notOkBadBody e => .error e
  | .okBadBody e => .error e
  | .okParsed data =>
      if !(jtruthy (data.getField "dailyTotals")) ||
          !(jtruthy (data.getField "loggedMeals")) then
        .error "Invalid response format from AI. Please try again."
      else
        .ok { contentText := "Food analyzed: " ++ foodDescription
              structuredContent :=
                .obj [("dailyTotals", (data.getField "dailyTotals").getD .null),
                      ("loggedMeals", (data.getField "loggedMeals").getD .null)] }

/-- The error strategy message of the live credential check (part_001
lines 144-157). -/
def missingKeyMsg : String :=
  "OpenAI API key not configured. Please set OPENAI_API_KEY environment variable."

/-- The part_001 live `analyze_food` handler (lines 138-291): `!apiKey`
returns the credential error envelope directly; otherwise the try body
runs and any thrown failure is caught and converted into the error
envelope whose `structuredContent.error` carries the message.  Totality
of this function is the embedding of "no exception propagates past the
handler". -/
def liveAnalyzeFood (apiKey : Option String) (up : UpstreamOutcome)
    (foodDescription : String) : ToolResponse :=
  if !(strOptTruthy apiKey) then
    { contentText := "Error: " ++ missingKeyMsg
      structuredContent := .obj [("error", .str missingKeyMsg)] }
  else
    match liveTryBody up foodDescription with
    | .ok r => r
    | .error msg =>
        { contentText := "Error processing food analysis request: " ++ foodDescription
          structuredContent := .obj [("error", .str msg)] }

/-- The failure paths of the live strategy named by the spec: missing
credential, non-success upstream status, unparseable response body, or a
parsed response failing the required-fields validation. -/
def liveFailurePath (apiKey : Option String) (up : UpstreamOutcome) : Prop :=
  strOptTruthy apiKey = false ∨
  (∃ m, up = .notOkParsed m) ∨
  (∃ e, up = .notOkBadBody e) ∨
  (∃ e, up = .okBadBody e) ∨
  (∃ d, up = .okParsed d ∧
    (jtruthy (d.getField "dailyTotals") = false ∨
     jtruthy (d.getField "loggedMeals") = false))

/-- Environment assumption: messages of errors thrown by the JS runtime
itself (`response.json()`, `choices[0]` access, `JSON.parse`) are
non-empty strings. -/
def runtimeMsgsNonEmpty (up : UpstreamOutcome) : Prop :=
  match up with
  | .notOkBadBody e => e ≠ ""
  | .okBadBody e => e ≠ ""
  | _ => True

/-! ### Helper lemmas -/

/-- A value owning a probed key is an object, hence truthy and
object-typed. -/
theorem hasKey_true_facts (v : JVal) (k : String) (h : hasKey v k = true) :
    vtruthy v = true ∧ isObjLike v = true := by
  cases v <;> simp_all [hasKey, vtruthy, isObjLike]

/-- `a || b` on strings is non-empty whenever the fallback is. -/
theorem jsOrStr_ne_empty (a : Option String) (b : String) (hb : b ≠ "") :
    jsOrStr a b ≠ "" := by
  match a with
  | none => simpa [jsOrStr] using hb
  | some s =>
      by_cases h : s.isEmpty
      · simpa [jsOrStr, h] using hb
      · simp only [jsOrStr, h, if_false]
        intro hs
        subst hs
        exact h rfl

/-- Characterisation of the settled loading flag for well-formed derived
meal lists. -/
theorem settledIsLoading_iff (t : Option JVal) (hwf : loggedMealsWF t) :
    settledIsLoading t = true ↔
      (t = none ∨
        ((jget (extractMealData t) "loggedMeals" = none ∨
          jget (extractMealData t) "loggedMeals" = some (JVal.arr [])) ∧
         (∃ v, t = some v ∧ hasKey v "foodDescription" = true ∧
            hasNonEmptyLoggedMeals v = false))) := by
  have hdm : ∃ l : List JVal, derivedMeals t = JVal.arr l ∧
      (jget (extractMealData t) "loggedMeals" = none ∨
        jget (extractMealData t) "loggedMeals" = some (JVal.arr l)) := by
    rcases hwf with h | ⟨l, h⟩
    · exact ⟨[], by simp [derivedMeals, h], Or.inl h⟩
    · exact ⟨l, by simp [derivedMeals, h, vtruthy], Or.inr h⟩
  rcases hdm with ⟨l, hdm, hL⟩
  cases l with
  | cons x xs =>
      have hgt : jsLengthGtZero (derivedMeals t) = true := by
        simp [hdm, jsLengthGtZero]
      have hfalse : settledIsLoading t = false := by
        simp [settledIsLoading, hgt]
      rw [hfalse]
      simp only [Bool.false_eq_true, false_iff]
      rintro (rfl | ⟨hempty, -⟩)
      · rw [show derivedMeals none = JVal.arr [] from rfl] at hdm
        simp at hdm
      · rcases hL with h | h
        · have hnil : derivedMeals t = JVal.arr [] := by simp [derivedMeals, h]
          rw [hnil] at hdm
          simp at hdm
        · rcases hempty with h2 | h2 <;> rw [h] at h2 <;> simp at h2
  | nil =>
      have hgt : jsLengthGtZero (derivedMeals t) = false := by
        simp [hdm, jsLengthGtZero]
      cases t with
      | none =>
          simp [settledIsLoading, hgt]
      | some v =>
          have hsl : settledIsLoading (some v) =
              (vtruthy v && isObjLike v && hasKey v "foodDescription" &&
                !(hasNonEmptyLoggedMeals v)) := by
            simp [settledIsLoading, hgt]
          rw [hsl]
          constructor
          · intro h
            refine Or.inr ⟨hL, v, rfl, ?_, ?_⟩
            · simp only [Bool.and_eq_true] at h
              exact h.1.2
            · simp only [Bool.and_eq_true, Bool.not_eq_true'] at h
              exact h.2
          · rintro (h | ⟨-, w, hw, hkey, hnel⟩)
            · exact absurd h (by simp)
            · obtain rfl : v = w := by injection hw
              obtain ⟨ht, ho⟩ := hasKey_true_facts v "foodDescription" hkey
              simp [ht, ho, hkey, hnel]

/-! ### Claim theorems -/

/-- Claim C1: the Envelope Normalizer tries, in order with first match
winning and no merging, `envelope.result.structuredContent`, then
`envelope.structuredContent`, then `envelope.result` directly, then the
envelope itself when it owns a `loggedMeals` or `dailyTotals` field; the
returned value is the object at the matched path, and an absent envelope
or one matching no path yields `null` (the function is total: no shape
raises). -/
theorem c1_normalizer_resolution (t : Option JVal) :
    (jtruthy (jget (jget t "result") "structuredContent") = true →
      extractMealData t = jget (jget t "result") "structuredContent")
  ∧ (jtruthy (jget (jget t "result") "structuredContent") = false →
      jtruthy (jget t "structuredContent") = true →
      extractMealData t = jget t "structuredContent")
  ∧ (jtruthy (jget (jget t "result") "structuredContent") = false →
      jtruthy (jget t "structuredContent") = false →
      jtruthy (jget t "result") = true →
      extractMealData t = jget t "result")
  ∧ (jtruthy (jget (jget t "result") "structuredContent") = false →
      jtruthy (jget t "structuredContent") = false →
      jtruthy (jget t "result") = false →
      envHasMealKeys t = true →
      extractMealData t = t)
  ∧ (t = none → extractMealData t = none)
  ∧ (jtruthy (jget (jget t "result") "structuredContent") = false →
      jtruthy (jget t "structuredContent") = false →
      jtruthy (jget t "result") = false →
      envHasMealKeys t = false →
      extractMealData t = none) := by
  refine ⟨?_, ?_, ?_, ?_, ?_, ?_⟩
  · intro h1; simp [extractMealData, h1]
  · intro h1 h2; simp [extractMealData, h1, h2]
  · intro h1 h2 h3; simp [extractMealData, h1, h2, h3]
  · intro h1 h2 h3 h4; simp [extractMealData, h1, h2, h3, h4]
  · rintro rfl; rfl
  · intro h1 h2 h3 h4; simp [extractMealData, h1, h2, h3, h4]

/-- Witness for C1 at the spec's Big Mac scenario envelope: the MealData
nested under `result.structuredContent` is returned exactly. -/
theorem c1_normalizer_resolution_w :
    extractMealData
      (some (JVal.obj [("result", JVal.obj [("structuredContent",
        JVal.obj [("dailyTotals", nutrientsToJVal ⟨657, 30, 62, 35⟩),
                  ("loggedMeals", JVal.arr [JVal.obj [("meal_name", JVal.str "Big Mac Meal")]])])])]))
    = some (JVal.obj [("dailyTotals", nutrientsToJVal ⟨657, 30, 62, 35⟩),
        ("loggedMeals", JVal.arr [JVal.obj [("meal_name", JVal.str "Big Mac Meal")]])]) :=
  (c1_normalizer_resolution _).1 rfl

/-- Counterexample to claim C2 as stated: from the envelope
`{ error: "" }` the extraction rule ("first the MealData error, else the
envelope error" — shown here both by the spec's nullish-coalescing rule
and by the source's own `||` extraction) produces the empty string, a
non-null error string, yet the state machine renders Empty, not Error:
the source gates the Error state on JS truthiness, which an empty error
string fails. -/
theorem c2_counterexample :
    specExtractedError (some (JVal.obj [("error", JVal.str "")])) = some (JVal.str "")
  ∧ derivedError (some (JVal.obj [("error", JVal.str "")])) = some (JVal.str "")
  ∧ renderState (some (JVal.obj [("error", JVal.str "")])) = RState.empty
  ∧ RState.empty ≠ RState.error :=
  ⟨rfl, rfl, rfl, by decide⟩

/-- Claim C2 (amended): for every envelope whose extracted error — the
derived MealData's error if truthy, else the envelope's top-level
error — is a TRUTHY value (a non-empty string), the state machine yields
Error, irrespective of any concurrently present meal list; no other
state is produced for that envelope. -/
theorem c2_error_state (t : Option JVal)
    (h : jtruthy (derivedError t) = true) :
    renderState t = RState.error := by
  simp [renderState, h]

/-- Witness for C2 at the spec's rate-limit scenario, with a meal list
concurrently present: the Error state wins. -/
theorem c2_error_state_w :
    renderState (some (JVal.obj [("structuredContent",
      JVal.obj [("error", JVal.str "rate limited"),
                ("loggedMeals", JVal.arr [JVal.obj []])])])) = RState.error :=
  c2_error_state _ rfl

/-- Claim C3: for every envelope with no extracted error (and a
well-formed derived meal field), the state machine yields Loading exactly
when (a) no envelope has arrived yet, or (b) the derived `loggedMeals` is
absent or empty, the envelope owns a `foodDescription` field, and the
envelope does not own a non-empty `loggedMeals` array. -/
theorem c3_loading_rule (t : Option JVal)
    (hwf : loggedMealsWF t)
    (hnoerr : jtruthy (derivedError t) = false) :
    renderState t = RState.loading ↔
      (t = none ∨
        ((jget (extractMealData t) "loggedMeals" = none ∨
          jget (extractMealData t) "loggedMeals" = some (JVal.arr [])) ∧
         (∃ v, t = some v ∧ hasKey v "foodDescription" = true ∧
            hasNonEmptyLoggedMeals v = false))) := by
  rw [← settledIsLoading_iff t hwf]
  rcases hsl : settledIsLoading t with _ | _
  · simp only [renderState, hnoerr, Bool.false_eq_true, if_false, hsl]
    constructor
    · intro h
      split at h <;> simp at h
    · intro h
      simp at h
  · simp [renderState, hnoerr, hsl]

/-- Witness for C3 at the spec's `{ foodDescription: "pizza and burger" }`
scenario: no meals yet, an in-flight marker, hence Loading. -/
theorem c3_loading_rule_w :
    renderState (some (JVal.obj [("foodDescription", JVal.str "pizza and burger")]))
      = RState.loading :=
  (c3_loading_rule (some (JVal.obj [("foodDescription", JVal.str "pizza and burger")]))
      (Or.inl rfl) rfl).mpr
    (Or.inr ⟨Or.inl rfl, JVal.obj [("foodDescription", JVal.str "pizza and burger")],
      rfl, rfl, rfl⟩)

/-- Claim C4: for every envelope with no extracted error that is not
Loading (and a well-formed derived meal field), the state machine yields
Empty exactly when the derived meal list has length zero and Ready
exactly when it has length at least one; every envelope is assigned
exactly one of the four states (renderState is a total function into the
four-element state type). -/
theorem c4_empty_ready (t : Option JVal)
    (hwf : loggedMealsWF t)
    (hnoerr : jtruthy (derivedError t) = false)
    (hnl : settledIsLoading t = false) :
    (renderState t = RState.empty ↔ derivedMealsLen t = 0)
  ∧ (renderState t = RState.ready ↔ 1 ≤ derivedMealsLen t)
  ∧ (renderState t = RState.error ∨ renderState t = RState.loading ∨
     renderState t = RState.empty ∨ renderState t = RState.ready) := by
  have hdm : ∃ l : List JVal, derivedMeals t = JVal.arr l := by
    rcases hwf with h | ⟨l, h⟩
    · exact ⟨[], by simp [derivedMeals, h]⟩
    · exact ⟨l, by simp [derivedMeals, h, vtruthy]⟩
  rcases hdm with ⟨l, hdm⟩
  have hlen : derivedMealsLen t = l.length := by
    simp [derivedMealsLen, hdm]
  have hrs : renderState t = if l.isEmpty then RState.empty else RState.ready := by
    unfold renderState
    rw [hnoerr, hnl, hdm]
    simp [jsLengthEqZero]
  refine ⟨?_, ?_, ?_⟩
  · cases l with
    | nil => simp [hrs, hlen]
    | cons x xs => simp [hrs, hlen]
  · cases l with
    | nil => simp [hrs, hlen]
    | cons x xs => simp [hrs, hlen, Nat.succ_le_iff]
  · cases l with
    | nil => simp [hrs]
    | cons x xs => simp [hrs]

/-- Witness for C4 at the spec's `{ loggedMeals: [] }` scenario: zero
meals, no in-flight marker, hence Empty. -/
theorem c4_empty_ready_w :
    renderState (some (JVal.obj [("loggedMeals", JVal.arr [])])) = RState.empty :=
  (c4_empty_ready (some (JVal.obj [("loggedMeals", JVal.arr [])]))
    (Or.inr ⟨[], rfl⟩) rfl rfl).1.mpr rfl

/-- Claim C5: for every tool request whose validated `analyzedData`
supplies the aggregate-totals object and a non-empty meal list, the
page.tsx handler takes the Passthrough branch: `structuredContent` is
exactly the JSON encoding of the supplied payload (its two fields copied
without recomputation; zod has stripped any other key) and the content
text states the description was analyzed. -/
theorem c5_passthrough (fd : String) (ad : AnalyzedData)
    (_hne : ad.loggedMeals ≠ []) :
    (analyzeFood fd (some ad)).structuredContent = analyzedDataToJVal ad
  ∧ (analyzeFood fd (some ad)).contentText = "Food analyzed: " ++ fd :=
  ⟨rfl, rfl⟩

/-- Witness for C5 at a complete Big Mac payload. -/
theorem c5_passthrough_w :
    (analyzeFood "Big Mac meal"
        (some ⟨⟨657, 30, 62, 35⟩, [JVal.obj [("meal_name", JVal.str "Big Mac Meal")]]⟩)).structuredContent
      = analyzedDataToJVal ⟨⟨657, 30, 62, 35⟩, [JVal.obj [("meal_name", JVal.str "Big Mac Meal")]]⟩
  ∧ (analyzeFood "Big Mac meal"
        (some ⟨⟨657, 30, 62, 35⟩, [JVal.obj [("meal_name", JVal.str "Big Mac Meal")]]⟩)).contentText
      = "Food analyzed: " ++ "Big Mac meal" :=
  c5_passthrough "Big Mac meal" _ (List.cons_ne_nil _ _)

/-- Counterexample to claim C6 as stated: the `route.ts` handler accepts
no pre-analyzed payload and consults no credential, so the request
`{ foodDescription: "100g blueberries" }` falls under the claim; its
response's `structuredContent` holds only the food description and NO
error string at all (the field is left for the model to populate),
contradicting "the response's structuredContent contains ... a non-empty
error string". -/
theorem c6_counterexample :
    (routeAnalyzeFood "100g blueberries").structuredContent
      = JVal.obj [("foodDescription", JVal.str "100g blueberries")]
  ∧ ((routeAnalyzeFood "100g blueberries").structuredContent).getField "error" = none :=
  ⟨rfl, rfl⟩

/-- Claim C6 (amended): for every tool request with no pre-analyzed
payload, the analyzedData-capable handler (the page.tsx route) returns a
Deferred response whose `structuredContent` holds exactly the original
`foodDescription` verbatim and a non-empty error string instructing the
caller to resubmit with analysis populated, with the content text
restating the instruction and no nutrition number anywhere in the
response; the plain `route.ts` variant instead returns only the
`foodDescription` with no error field (see the counterexample), though it
too fabricates no nutrition numbers. -/
theorem c6_deferred (fd : String) :
    (analyzeFood fd none).structuredContent
      = JVal.obj [("foodDescription", JVal.str fd), ("error", JVal.str deferredErrorMsg)]
  ∧ deferredErrorMsg ≠ ""
  ∧ (analyzeFood fd none).contentText
      = "Please analyze \"" ++ fd ++
          "\" using your nutrition knowledge and call this tool with the analyzedData parameter populated with the complete meal data." :=
  ⟨rfl, by decide, rfl⟩

/-- Claim C7: every failure path of the live-service strategy — missing
credential, non-success upstream status, unparseable response body, or a
parsed response failing the required-top-level-fields validation (in
particular one lacking both `dailyTotals` and `loggedMeals`) — is caught
at the strategy boundary and converted into a normally-shaped response
envelope whose `structuredContent.error` carries a non-empty message
(`liveAnalyzeFood` being a total function into `ToolResponse` is the
embedding of "no exception propagates past the handler"). -/
theorem c7_live_failures_converted (apiKey : Option String)
    (up : UpstreamOutcome) (fd : String)
    (hfail : liveFailurePath apiKey up) (hrt : runtimeMsgsNonEmpty up) :
    ∃ msg, ((liveAnalyzeFood apiKey up fd).structuredContent).getField "error"
        = some (JVal.str msg) ∧ msg ≠ "" := by
  rcases hk : strOptTruthy apiKey with _ | _
  · refine ⟨missingKeyMsg, ?_, by decide⟩
    simp [liveAnalyzeFood, hk, JVal.getField, lookupField]
  · have hconv : ∀ m : String, m ≠ "" → liveTryBody up fd = .error m →
        ∃ msg, ((liveAnalyzeFood apiKey up fd).structuredContent).getField "error"
            = some (JVal.str msg) ∧ msg ≠ "" := by
      intro m hm he
      refine ⟨m, ?_, hm⟩
      simp [liveAnalyzeFood, hk, he, JVal.getField, lookupField]
    cases up with
    | notOkParsed m =>
        exact hconv _ (jsOrStr_ne_empty m "Failed to process food data" (by decide)) rfl
    | notOkBadBody e =>
        exact hconv e hrt rfl
    | okBadBody e =>
        exact hconv e hrt rfl
    | okParsed d =>
        have hval : (!(jtruthy (d.getField "dailyTotals")) ||
            !(jtruthy (d.getField "loggedMeals"))) = true := by
          rcases hfail with h | h | h | h | ⟨d2, hd2, hor⟩
          · rw [hk] at h; exact absurd h (by simp)
          · rcases h with ⟨m, hm⟩; exact absurd hm (by simp)
          · rcases h with ⟨e, he⟩; exact absurd he (by simp)
          · rcases h with ⟨e, he⟩; exact absurd he (by simp)
          · obtain rfl : d = d2 := by injection hd2
            rcases hor with h | h <;> simp [h]
        refine hconv "Invalid response format from AI. Please try again." (by decide) ?_
        simp [liveTryBody, hval]

/-- Witness for C7 with the credential absent: the error envelope carries
the non-empty configuration message. -/
theorem c7_live_failures_converted_w :
    ∃ msg, ((liveAnalyzeFood none (.okParsed .null) "100g blueberries").structuredContent).getField "error"
        = some (JVal.str msg) ∧ msg ≠ "" :=
  c7_live_failures_converted none (.okParsed .null) "100g blueberries" (Or.inl rfl) trivial

/-- Claim C8: every nutrient value displayed by the presenter (the shared
four-column grid of the daily-totals block, the meal cards and the
ingredient lines) is `Math.round` of the stored value, which on
non-negative inputs is exactly round-half-away-from-zero; in particular
56.5 displays as 57 and 0 displays as 0 (the display function is total —
never blank). -/
theorem c8_rounding (n : Nutrients)
    (h : 0 ≤ n.calories ∧ 0 ≤ n.protein ∧ 0 ≤ n.carbs ∧ 0 ≤ n.fat) :
    nutrientsGrid n =
      [roundHalfAwayFromZero n.calories, roundHalfAwayFromZero n.protein,
       roundHalfAwayFromZero n.carbs, roundHalfAwayFromZero n.fat]
  ∧ mathRound (113/2 : ℚ) = 57 ∧ mathRound 0 = 0 := by
  obtain ⟨h1, h2, h3, h4⟩ := h
  refine ⟨?_, by norm_num [mathRound], by norm_num [mathRound]⟩
  simp [nutrientsGrid, mathRound, roundHalfAwayFromZero, h1, h2, h3, h4]

/-- Witness for C8 at a nutrient vector containing both the half case
56.5 and the zero case. -/
theorem c8_rounding_w :
    nutrientsGrid ⟨113/2, 0, 62, 35⟩ =
      [roundHalfAwayFromZero (113/2 : ℚ), roundHalfAwayFromZero 0,
       roundHalfAwayFromZero 62, roundHalfAwayFromZero 35]
  ∧ mathRound (113/2 : ℚ) = 57 ∧ mathRound 0 = 0 :=
  c8_rounding ⟨113/2, 0, 62, 35⟩ (by norm_num)

/-- Claim C9: in the Ready state of the part_000 page (no truthy error,
non-empty meal list), the daily-totals block is rendered if and only if
the canonical MealData contains a `dailyTotals` object, and when present
its four rounded fields appear in the block placed above all meal
cards. -/
theorem c9_daily_totals_block (md : MealData) (envErr : Option String)
    (herr : strOptTruthy (jsOrS md.mdError envErr) = false)
    (hready : md.loggedMeals.getD [] ≠ []) :
    ∃ bs, render000 (some md) envErr = View000.readyView bs
      ∧ ((∃ v, RBlock.totals v ∈ bs) ↔ md.dailyTotals.isSome)
      ∧ (∀ n, md.dailyTotals = some n →
          bs = RBlock.totals (nutrientsGrid n) ::
            (md.loggedMeals.getD []).map mealBlock) := by
  have hempty : ((md.loggedMeals.getD []) : List Meal).isEmpty = false := by
    rcases h : (md.loggedMeals.getD [] : List Meal) with _ | ⟨m, ms⟩
    · exact absurd h hready
    · rfl
  refine ⟨(match md.dailyTotals with
      | some n => [RBlock.totals (nutrientsGrid n)]
      | none => []) ++ (md.loggedMeals.getD []).map mealBlock, ?_, ?_, ?_⟩
  · simp only [render000, Option.some_bind, herr, Bool.false_eq_true, if_false, hempty]
  · cases hdt : md.dailyTotals with
    | some n =>
        simp only [hdt, Option.isSome_some, iff_true, List.singleton_append]
        exact ⟨nutrientsGrid n, List.mem_cons_self _ _⟩
    | none =>
        simp only [hdt, Option.isSome_none, Bool.false_eq_true, iff_false,
          List.nil_append]
        rintro ⟨v, hv⟩
        rcases List.mem_map.mp hv with ⟨m, -, hm⟩
        simp [mealBlock] at hm
  · intro n hn
    rw [hn]
    rfl

/-- Witness for C9 at the spec's Big Mac scenario MealData: one meal,
daily totals present, the totals block (657 calories rounded) heading
the ready view. -/
theorem c9_daily_totals_block_w :
    ∃ bs, render000 (some ⟨some ⟨657, 30, 62, 35⟩,
        some [⟨"Big Mac Meal", none, [], ⟨657, 30, 62, 35⟩⟩], none⟩) none
        = View000.readyView bs
      ∧ ((∃ v, RBlock.totals v ∈ bs) ↔
          (some (⟨657, 30, 62, 35⟩ : Nutrients)).isSome)
      ∧ (∀ n, (some (⟨657, 30, 62, 35⟩ : Nutrients)) = some n →
          bs = RBlock.totals (nutrientsGrid n) ::
            ((some [(⟨"Big Mac Meal", none, [], ⟨657, 30, 62, 35⟩⟩ : Meal)]).getD []).map mealBlock) :=
  c9_daily_totals_block
    ⟨some ⟨657, 30, 62, 35⟩, some [⟨"Big Mac Meal", none, [], ⟨657, 30, 62, 35⟩⟩], none⟩
    none rfl (List.cons_ne_nil _ _)

/-- Claim C10 (implicit): a caller-supplied `analyzedData` with a present
`dailyTotals` and an EMPTY `loggedMeals` array still takes the
Passthrough branch — the selection tests only truthiness and `[]` is
truthy — so the response carries the empty meal list and no error field,
and the client, fed that `structuredContent` as its envelope, renders the
Empty state rather than requesting resubmission. -/
theorem c10_empty_list_passthrough (fd : String) (dt : Nutrients) :
    (analyzeFood fd (some ⟨dt, []⟩)).structuredContent
      = JVal.obj [("dailyTotals", nutrientsToJVal dt), ("loggedMeals", JVal.arr [])]
  ∧ ((analyzeFood fd (some ⟨dt, []⟩)).structuredContent).getField "error" = none
  ∧ vtruthy (JVal.arr []) = true
  ∧ renderState (some (JVal.obj [("structuredContent",
      (analyzeFood fd (some ⟨dt, []⟩)).structuredContent)])) = RState.empty :=
  ⟨rfl, rfl, rfl, rfl⟩
